import Mathlib

/-!
Verification of the session-handoff client and the server lifecycle
manager of the `unreal-multiplayer-server-in-aws` skeleton project.

The client side embeds `OfflineMainMenuWidget.cpp`:
`LoginRequest` / `OnLoginResponse` / `StartSessionRequest` /
`OnStartSessionResponse`.  The server side embeds
`GameModeWithGameLift.cpp`: the constructor's `NoGameLift` command-line
check and `SetupGameLift`'s wiring of `FProcessParameters` handed to the
GameLift SDK.

Unreal's JSON library (`FJsonObject` / `FJsonValue`) is an external
collaborator; it is modelled by `JsonValue` below with Unreal's
documented degraded semantics for missing fields: `GetObjectField` on a
missing or non-object field logs an error and yields a shared empty
object (`FJsonValue::AsObject` falls back to a valid `EMPTY_OBJECT`),
and `GetStringField` on a missing or non-string field logs an error and
yields the empty string (`FJsonValue::AsString` falls back to
`FString()`).  `FJsonSerializer::Deserialize` of a response body is
modelled by giving the handler the already-parsed body as an
`Option`: `none` when deserialization fails, `some fields` when the
body is a JSON object with the given fields.
-/

namespace SkeletonProject

/-- JSON values as stored by Unreal's `FJsonValue` (only the shapes this
program touches: null, strings, objects). -/
inductive JsonValue where
  | null
  | str (s : String)
  | obj (fields : List (String × JsonValue))

/-- Field lookup in an `FJsonObject`'s field map (keys are unique in a
`TMap`; first match). -/
def lookupField : List (String × JsonValue) → String → Option JsonValue
  | [], _ => none
  | (k, v) :: rest, name => if k = name then some v else lookupField rest name

/-- `FJsonObject::GetObjectField`: the field's object when present and of
object type; otherwise Unreal logs an error and yields the shared empty
object. -/
def getObjectField (fields : List (String × JsonValue)) (name : String) :
    List (String × JsonValue) :=
  match lookupField fields name with
  | some (JsonValue.obj fs) => fs
  | _ => []

/-- `FJsonObject::GetStringField`: the field's string when present and of
string type; otherwise Unreal logs an error and yields the empty
string. -/
def getStringField (fields : List (String × JsonValue)) (name : String) : String :=
  match lookupField fields name with
  | some (JsonValue.str s) => s
  | _ => ""

/-- An HTTP completion as the widget's response handlers see it:
`bWasSuccessful`, and the response content after
`FJsonSerializer::Deserialize` (`none` when deserialization fails). -/
structure HttpResponseModel where
  wasSuccessful : Bool
  body : Option (List (String × JsonValue))

/-- The credential pair held by the widget (`user` / `pass`). -/
structure Credentials where
  username : String
  password : String
deriving DecidableEq, Repr

/-- An outgoing HTTP request as the widget configures it. -/
structure ClientRequest where
  verb : String
  url : String
  contentType : String
  authorization : Option String
  body : Option (List (String × JsonValue))

/-- Constructor defaults (`UOfflineMainMenuWidget::UOfflineMainMenuWidget`). -/
def apiGatewayEndpoint : String :=
  "https://yfg5i8v0w4.execute-api.us-west-2.amazonaws.com/potato-api-test-stage"

def loginURI : String := "/login"

def startSessionURI : String := "/startsession"

/-- `UOfflineMainMenuWidget::LoginRequest`: POST `<base>/login` with a
JSON body `{username, password}` and `Content-Type: application/json`. -/
def LoginRequest (usr pwd : String) : ClientRequest :=
  { verb := "POST"
    url := apiGatewayEndpoint ++ loginURI
    contentType := "application/json"
    authorization := none
    body := some [("username", JsonValue.str usr), ("password", JsonValue.str pwd)] }

/-- `UOfflineMainMenuWidget::StartSessionRequest`: GET
`<base>/startsession` with the id token in the `Authorization` header. -/
def StartSessionRequest (idt : String) : ClientRequest :=
  { verb := "GET"
    url := apiGatewayEndpoint ++ startSessionURI
    contentType := "application/json"
    authorization := some idt
    body := none }

/-- The outgoing effects a widget response handler can perform:
issue the start-session request with a given token, or hand a
host:port level name to `UGameplayStatics::OpenLevel`. -/
inductive ClientAction where
  | startSessionRequest (idToken : String)
  | openLevel (levelName : String)
deriving DecidableEq, Repr

/-- `UOfflineMainMenuWidget::OnLoginResponse`: when `bWasSuccessful` and
the body deserializes, extract `tokens.IdToken` and call
`StartSessionRequest` with it; otherwise fall through and do
nothing. -/
def OnLoginResponse (resp : HttpResponseModel) : List ClientAction :=
  if resp.wasSuccessful then
    match resp.body with
    | some fields =>
        [ClientAction.startSessionRequest
          (getStringField (getObjectField fields "tokens") "IdToken")]
    | none => []
  else []

/-- The connection target `OnStartSessionResponse` extracts from a
session response: `PlayerSession.IpAddress` and `PlayerSession.Port`,
available exactly when the transport succeeded and the body
deserializes. -/
structure ConnectionTarget where
  host : String
  port : String
deriving DecidableEq, Repr

def sessionConnectionTarget (resp : HttpResponseModel) : Option ConnectionTarget :=
  if resp.wasSuccessful then
    match resp.body with
    | some fields =>
        some { host := getStringField (getObjectField fields "PlayerSession") "IpAddress"
               port := getStringField (getObjectField fields "PlayerSession") "Port" }
    | none => none
  else none

/-- `UOfflineMainMenuWidget::OnStartSessionResponse`: when
`bWasSuccessful` and the body deserializes, extract the target, form
`LevelName = IpAddress + ":" + Port` and call `OpenLevel` on it;
otherwise fall through and do nothing. -/
def OnStartSessionResponse (resp : HttpResponseModel) : List ClientAction :=
  match sessionConnectionTarget resp with
  | some t => [ClientAction.openLevel (t.host ++ ":" ++ t.port)]
  | none => []

/-- The `OpenLevel` targets among a handler's actions. -/
def targetsOf (acts : List ClientAction) : List String :=
  acts.filterMap fun a =>
    match a with
    | ClientAction.openLevel s => some s
    | _ => none

/-- The start-session request tokens among a handler's actions. -/
def sessionRequestsOf (acts : List ClientAction) : List String :=
  acts.filterMap fun a =>
    match a with
    | ClientAction.startSessionRequest t => some t
    | _ => none

/-- One full login attempt: the widget issues `LoginRequest(c)` and the
backend completes it with `loginResp`; if `OnLoginResponse` issued a
start-session request, the backend completes that with `sessionResp`
and `OnStartSessionResponse` runs.  The result is the full action
sequence of the attempt. -/
def runAttempt (_c : Credentials) (loginResp sessionResp : HttpResponseModel) :
    List ClientAction :=
  let la := OnLoginResponse loginResp
  la ++ if (sessionRequestsOf la).isEmpty then [] else OnStartSessionResponse sessionResp

/-! ## Server side: `GameModeWithGameLift.cpp` -/

/-- The opaque session object the agent passes to `OnStartGameSession`
(`Aws::GameLift::Server::Model::GameSession`); the handler ignores its
contents. -/
structure GameSession where
  sessionData : String
deriving DecidableEq, Repr

/-- Calls the game mode makes into the GameLift server SDK module. -/
inductive SdkCall where
  | initSDK
  | processReady (port : Nat) (logParameters : List String)
  | activateGameSession
  | processEnding
deriving DecidableEq, Repr

/-- The `FProcessParameters` struct `SetupGameLift` fills in: the three
bound lambdas (each modelled by the SDK calls it makes, or the value it
returns), the listen port and the log-upload paths. -/
structure FProcessParameters where
  onStartGameSession : GameSession → List SdkCall
  onTerminate : List SdkCall
  onHealthCheck : Bool
  port : Nat
  logParameters : List String

/-- The parameter struct exactly as `SetupGameLift` builds it:
`onGameSession` calls `ActivateGameSession()`, `OnTerminate` calls
`ProcessEnding()`, `OnHealthCheck` returns `true`, the port is the
hardcoded 7777 and the log list is the single `aLogFile.txt`. -/
def setupGameLiftParams : FProcessParameters :=
  { onStartGameSession := fun _ => [SdkCall.activateGameSession]
    onTerminate := [SdkCall.processEnding]
    onHealthCheck := true
    port := 7777
    logParameters := ["aLogFile.txt"] }

/-- An SDK operation's result (`FGameLiftGenericOutcome`). -/
structure GenericOutcome where
  success : Bool
deriving DecidableEq, Repr

/-- What `SetupGameLift` does with the outcomes of its two SDK
operations, and what it reports to the host: the body calls
`InitSDK()` and `ProcessReady(*params)` in order, binds neither return
value, contains no conditional on them, and returns `void` — so the
emitted calls are always the same and no error string ever reaches the
host, whatever the outcomes were. -/
def setupGameLiftRun (initOutcome readyOutcome : GenericOutcome) :
    List SdkCall × Option String :=
  let _ := initOutcome
  let params := setupGameLiftParams
  let _ := readyOutcome
  ([SdkCall.initSDK, SdkCall.processReady params.port params.logParameters], none)

/-- The `AGameModeWithGameLift` constructor under `WITH_GAMELIFT`:
unless `-NoGameLift` is on the command line, run `SetupGameLift`, which
wires the parameter struct and makes the two SDK calls; with the flag
(or without `WITH_GAMELIFT` compiled in) nothing GameLift-related
happens at all. -/
def gameModeCtor (withGameLift noGameLiftParam : Bool) :
    Option FProcessParameters × List SdkCall :=
  if withGameLift && !noGameLiftParam then
    (some setupGameLiftParams,
      [SdkCall.initSDK,
       SdkCall.processReady setupGameLiftParams.port setupGameLiftParams.logParameters])
  else (none, [])

/-- Callbacks the orchestration agent can deliver to a registered
process. -/
inductive AgentEvent where
  | gameSession (gs : GameSession)
  | terminate
  | healthCheck
deriving DecidableEq, Repr

/-- Dispatch one agent callback through the wired parameter struct:
the SDK calls the bound lambda makes, and the boolean reply when the
event is a health check. -/
def dispatchEvent (params : FProcessParameters) : AgentEvent → List SdkCall × Option Bool
  | AgentEvent.gameSession gs => (params.onStartGameSession gs, none)
  | AgentEvent.terminate => (params.onTerminate, none)
  | AgentEvent.healthCheck => ([], some params.onHealthCheck)

/-- The full SDK-call trace of one server process: the constructor's
calls, then the calls made by the handlers of the delivered agent
events.  A process that never registered (flag set, or GameLift not
compiled in) is unknown to the agent, which therefore delivers no
callbacks (spec §5 ordering guarantee: no session-related callback
before registration), so its trace is empty. -/
def runServer (withGameLift noGameLiftParam : Bool) (events : List AgentEvent) :
    List SdkCall :=
  match gameModeCtor withGameLift noGameLiftParam with
  | (some params, setupCalls) =>
      setupCalls ++ events.flatMap fun e => (dispatchEvent params e).1
  | (none, _) => []

/-- The boolean replies the health-check lambda returns across a run. -/
def healthReplies (withGameLift noGameLiftParam : Bool) (events : List AgentEvent) :
    List Bool :=
  match gameModeCtor withGameLift noGameLiftParam with
  | (some params, _) => events.filterMap fun e => (dispatchEvent params e).2
  | (none, _) => []

/-- The spec's names for the phases the registered process moves
through.  The code keeps no explicit state variable; these states
abstract the call history (after `ProcessReady` the process awaits a
session; `ActivateGameSession` marks it active; `ProcessEnding`
acknowledges shutdown). -/
inductive MState where
  | Unregistered
  | AwaitingSession
  | SessionActive
  | Terminating
deriving DecidableEq, Repr

/-- Phase transition induced by one agent event, as the code's handlers
realize it: a game-session event activates the session, a terminate
event moves to `Terminating` from any phase, a health check changes
nothing. -/
def stepState : MState → AgentEvent → MState
  | _, AgentEvent.terminate => MState.Terminating
  | MState.AwaitingSession, AgentEvent.gameSession _ => MState.SessionActive
  | s, AgentEvent.gameSession _ => s
  | s, AgentEvent.healthCheck => s

/-- One step of the registered manager: the next phase together with
the SDK calls the wired handler makes. -/
def stepManager (params : FProcessParameters) (s : MState) (e : AgentEvent) :
    MState × List SdkCall :=
  (stepState s e, (dispatchEvent params e).1)

/-! ## Claims about the session-handoff client -/

/-- A transport-successful, deserializable login response carrying a
well-formed `tokens.IdToken`. -/
def wellFormedLoginResponse : HttpResponseModel :=
  { wasSuccessful := true
    body := some [("tokens", JsonValue.obj [("IdToken", JsonValue.str "tokT")])] }

/-- C1 counterexample: on the transport-successful, well-formed login
response, `OnLoginResponse` itself issues the start-session request —
completion of `login`'s response handler alone does invoke
`requestSession`, contrary to the claim. -/
theorem c1_login_issues_session_request :
    OnLoginResponse wellFormedLoginResponse =
      [ClientAction.startSessionRequest "tokT"] := by
  decide

/-- C1 (amended): for every login response, `OnLoginResponse` never by
itself produces a connection target (it never calls `OpenLevel`); but
it does issue the start-session request, exactly when the response is
transport-successful and its body deserializes (the chain into
`requestSession` is internal to the login response handler). -/
theorem c1_login_no_target_but_chains (resp : HttpResponseModel) :
    targetsOf (OnLoginResponse resp) = [] ∧
      (sessionRequestsOf (OnLoginResponse resp) ≠ [] ↔
        resp.wasSuccessful = true ∧ resp.body.isSome = true) := by
  rcases resp with ⟨ws, body⟩
  cases ws <;> cases body <;>
    simp [OnLoginResponse, targetsOf, sessionRequestsOf]

/-- C2 counterexample: a transport-successful response whose body is the
valid JSON object `{"tokens":{}}` — lacking `tokens.IdToken` — does not
make `login` fail: the missing-field extraction degrades to the empty
string and `OnLoginResponse` invokes the start-session request with
that empty token, so `requestSession` IS invoked (and no
`MalformedResponseError` exists anywhere in the code). -/
theorem c2_malformed_body_still_requests_session :
    OnLoginResponse
        { wasSuccessful := true, body := some [("tokens", JsonValue.obj [])] } =
      [ClientAction.startSessionRequest ""] := by
  decide

/-- C2 (amended): a transport-successful response whose body fails JSON
deserialization makes the handler return silently — no session request
and no error value of any kind (the code defines no
`MalformedResponseError`); a transport-successful body that
deserializes to `{"tokens": {...}}` with no `IdToken` entry degrades
the extraction to the empty string and the handler invokes
`requestSession` with that empty token. -/
theorem c2_no_error_reporting :
    OnLoginResponse { wasSuccessful := true, body := none } = [] ∧
      ∀ tokensFields : List (String × JsonValue),
        lookupField tokensFields "IdToken" = none →
        OnLoginResponse
            { wasSuccessful := true
              body := some [("tokens", JsonValue.obj tokensFields)] } =
          [ClientAction.startSessionRequest ""] := by
  refine ⟨rfl, fun tokensFields h => ?_⟩
  simp [OnLoginResponse, getObjectField, getStringField, lookupField, h]

theorem c2_no_error_reporting_witness :
    lookupField [] "IdToken" = none ∧
      OnLoginResponse
          { wasSuccessful := true, body := some [("tokens", JsonValue.obj [])] } =
        [ClientAction.startSessionRequest ""] :=
  ⟨rfl, c2_no_error_reporting.2 [] rfl⟩

/-- The mock backend response of the claim:
`{"PlayerSession":{"IpAddress":"10.0.0.5","Port":"7777"}}`, delivered
with a successful transport result. -/
def mockSessionResponse : HttpResponseModel :=
  { wasSuccessful := true
    body := some [("PlayerSession",
      JsonValue.obj [("IpAddress", JsonValue.str "10.0.0.5"),
                     ("Port", JsonValue.str "7777")])] }

/-- C3: whenever the login attempt succeeds with token `T` (the login
handler issued the start-session request carrying `T`), completing that
request with the mock body
`{"PlayerSession":{"IpAddress":"10.0.0.5","Port":"7777"}}` yields
exactly the connection target `{host := "10.0.0.5", port := "7777"}`,
and the attempt hands `"10.0.0.5:7777"` to the transport layer
(`OpenLevel`) as its connection target. -/
theorem c3_session_target_extracted (c : Credentials)
    (loginResp : HttpResponseModel) (T : String)
    (h : OnLoginResponse loginResp = [ClientAction.startSessionRequest T]) :
    sessionConnectionTarget mockSessionResponse =
        some { host := "10.0.0.5", port := "7777" } ∧
      runAttempt c loginResp mockSessionResponse =
        [ClientAction.startSessionRequest T,
         ClientAction.openLevel "10.0.0.5:7777"] := by
  refine ⟨by decide, ?_⟩
  simp [runAttempt, h, sessionRequestsOf, OnStartSessionResponse,
    mockSessionResponse, sessionConnectionTarget, getObjectField,
    getStringField, lookupField]

theorem c3_session_target_extracted_witness :
    OnLoginResponse wellFormedLoginResponse =
        [ClientAction.startSessionRequest "tokT"] ∧
      (sessionConnectionTarget mockSessionResponse =
          some { host := "10.0.0.5", port := "7777" } ∧
        runAttempt ⟨"u", "p"⟩ wellFormedLoginResponse mockSessionResponse =
          [ClientAction.startSessionRequest "tokT",
           ClientAction.openLevel "10.0.0.5:7777"]) :=
  ⟨by decide, c3_session_target_extracted ⟨"u", "p"⟩ wellFormedLoginResponse "tokT" (by decide)⟩

/-- C5: if the login backend completes with a non-success transport
result, the attempt produces no connection target at all, whatever the
session backend would have answered. -/
theorem c5_failed_login_no_target (c : Credentials)
    (loginResp sessionResp : HttpResponseModel)
    (h : loginResp.wasSuccessful = false) :
    targetsOf (runAttempt c loginResp sessionResp) = [] := by
  simp [runAttempt, OnLoginResponse, h, sessionRequestsOf, targetsOf]

theorem c5_failed_login_no_target_witness :
    (HttpResponseModel.mk false (some [("tokens",
        JsonValue.obj [("IdToken", JsonValue.str "tokT")])])).wasSuccessful = false ∧
      targetsOf (runAttempt ⟨"u", "p"⟩
        (HttpResponseModel.mk false (some [("tokens",
          JsonValue.obj [("IdToken", JsonValue.str "tokT")])]))
        mockSessionResponse) = [] :=
  ⟨rfl, c5_failed_login_no_target ⟨"u", "p"⟩ _ mockSessionResponse rfl⟩

/-! ## Claims about the server lifecycle manager -/

/-- C4 counterexample: with both `InitSDK` and `ProcessReady` failing,
`SetupGameLift` surfaces no error to the host (no error value is
produced, so startup cannot abort on it) and still proceeds to declare
readiness — the failure is not fatal, contrary to the claim. -/
theorem c4_registration_failure_not_surfaced :
    (setupGameLiftRun ⟨false⟩ ⟨false⟩).2 = none ∧
      SdkCall.processReady 7777 ["aLogFile.txt"] ∈ (setupGameLiftRun ⟨false⟩ ⟨false⟩).1 := by
  decide

/-- C4 (amended): `SetupGameLift` ignores the outcomes of `InitSDK` and
`ProcessReady` entirely: for every pair of outcomes, including
failures, it makes the same two SDK calls and surfaces no error to the
host — registration failure is not fatal and startup continues as if
registered. -/
theorem c4_outcomes_ignored (initOutcome readyOutcome : GenericOutcome) :
    setupGameLiftRun initOutcome readyOutcome =
      ([SdkCall.initSDK, SdkCall.processReady 7777 ["aLogFile.txt"]], none) := by
  rfl

/-- C6: in every server trace, `ActivateGameSession` (the activation
acknowledgement) only ever occurs after the `ProcessReady` call (the
register-and-declare-ready operation): any occurrence of
`activateGameSession` at position `i` is preceded by `processReady` at
an earlier position.  (That the agent delivers callbacks only once
registration has completed successfully is the agent-side contract
baked into `runServer`.) -/
theorem c6_activate_after_process_ready (wg ng : Bool) (events : List AgentEvent)
    (i : Nat)
    (h : (runServer wg ng events)[i]? = some SdkCall.activateGameSession) :
    ∃ j, j < i ∧
      (runServer wg ng events)[j]? = some (SdkCall.processReady 7777 ["aLogFile.txt"]) := by
  unfold runServer gameModeCtor at h ⊢
  by_cases hc : (wg && !ng) = true
  · simp only [hc, if_true] at h ⊢
    refine ⟨1, ?_, by simp [setupGameLiftParams]⟩
    match i with
    | 0 => simp [setupGameLiftParams] at h
    | 1 => simp [setupGameLiftParams] at h
    | Nat.succ (Nat.succ k) => omega
  · simp [hc] at h

theorem c6_activate_after_process_ready_witness :
    ∃ j, j < 2 ∧
      (runServer true false [AgentEvent.gameSession ⟨"gs"⟩])[j]? =
        some (SdkCall.processReady 7777 ["aLogFile.txt"]) :=
  c6_activate_after_process_ready true false [AgentEvent.gameSession ⟨"gs"⟩] 2 (by decide)

/-- C7: a terminate callback delivered while the manager awaits a
session moves it to `Terminating`, and the wired `OnTerminate` handler
calls `ProcessEnding` (the shutdown acknowledgement) exactly once. -/
theorem c7_terminate_in_awaiting_session :
    stepManager setupGameLiftParams MState.AwaitingSession AgentEvent.terminate =
        (MState.Terminating, [SdkCall.processEnding]) ∧
      (stepManager setupGameLiftParams MState.AwaitingSession
          AgentEvent.terminate).2.count SdkCall.processEnding = 1 := by
  decide

/-- C8: with the orchestration-disabling flag (`-NoGameLift`) set, no
`FProcessParameters` struct is ever built (so none of the three
callbacks is wired), and the SDK-call trace is empty for every event
list — in particular registration (`InitSDK`/`ProcessReady`) is never
attempted and `ProcessEnding` is never called, even when the delivered
events include a shutdown signal. -/
theorem c8_no_gamelift_flag_disables_all (wg : Bool) (events : List AgentEvent) :
    (gameModeCtor wg true).1 = none ∧
      runServer wg true events = [] ∧
      SdkCall.processEnding ∉ runServer wg true (events ++ [AgentEvent.terminate]) := by
  refine ⟨?_, ?_, ?_⟩ <;> simp [gameModeCtor, runServer]

/-- C9: every boolean the health-check callback returns, over any run of
the registered manager, is `true` — the wired `OnHealthCheck` lambda is
the constant `true`, so the reply is `true` at whatever time the agent
delivers the check and whether or not a session is active. -/
theorem c9_health_check_always_true (wg ng : Bool) (events : List AgentEvent)
    (b : Bool) (h : b ∈ healthReplies wg ng events) : b = true := by
  unfold healthReplies gameModeCtor at h
  by_cases hc : (wg && !ng) = true
  · simp only [hc, if_true, List.mem_filterMap] at h
    obtain ⟨e, _, he⟩ := h
    cases e <;> simp [dispatchEvent, setupGameLiftParams] at he
    exact he
  · simp [hc] at h

theorem c9_health_check_always_true_witness :
    true ∈ healthReplies true false [AgentEvent.healthCheck] ∧ true = true :=
  ⟨by decide, c9_health_check_always_true true false [AgentEvent.healthCheck] true (by decide)⟩

/-- C10: whenever the constructor builds and registers a parameter
struct at all, that struct carries the hardcoded constants — listen
port `7777` and log-path list `["aLogFile.txt"]` — independent of the
compile flag and the command line, and the `ProcessReady` call in the
constructor's trace carries exactly those values. -/
theorem c10_process_parameters_constant (wg ng : Bool)
    (params : FProcessParameters) (calls : List SdkCall)
    (h : gameModeCtor wg ng = (some params, calls)) :
    params.port = 7777 ∧ params.logParameters = ["aLogFile.txt"] ∧
      SdkCall.processReady params.port params.logParameters ∈ calls := by
  unfold gameModeCtor at h
  by_cases hc : (wg && !ng) = true
  · simp only [hc, if_true, Prod.mk.injEq, Option.some.injEq] at h
    obtain ⟨hp, hcalls⟩ := h
    subst hp
    subst hcalls
    simp [setupGameLiftParams]
  · simp [hc] at h

theorem c10_process_parameters_constant_witness :
    gameModeCtor true false =
        (some setupGameLiftParams,
          [SdkCall.initSDK, SdkCall.processReady 7777 ["aLogFile.txt"]]) ∧
      (setupGameLiftParams.port = 7777 ∧
        setupGameLiftParams.logParameters = ["aLogFile.txt"] ∧
        SdkCall.processReady setupGameLiftParams.port setupGameLiftParams.logParameters ∈
          [SdkCall.initSDK, SdkCall.processReady 7777 ["aLogFile.txt"]]) :=
  ⟨rfl, c10_process_parameters_constant true false setupGameLiftParams
    [SdkCall.initSDK, SdkCall.processReady 7777 ["aLogFile.txt"]] rfl⟩

end SkeletonProject
